import Mathlib

/-!
Verification of the droplet provisioner (`lib/digital-ocean-provisioner.js`).

Each JavaScript operation relevant to the claims is shallowly embedded as a
pure Lean function.  Asynchronous callback code is modelled by passing the
outcome of every external call (process exit codes, API results, poll
observations) as explicit inputs, and by recording the observable behaviour
(commands executed, delays scheduled, callback invocations) as explicit
outputs.  Exit codes of spawned processes are naturals; API errors are
strings.  JavaScript number-to-string conversion on naturals is embedded as
`natDec` below.
-/

/-! ## Decimal rendering (JS number-to-string on naturals) -/

/-- Least-significant-first decimal digits of a natural number (`[]` for 0). -/
def decDigitsRev (n : Nat) : List Nat :=
  if h : n = 0 then [] else (n % 10) :: decDigitsRev (n / 10)
decreasing_by exact Nat.div_lt_self (Nat.pos_of_ne_zero h) (by decide)

/-- Recombine least-significant-first decimal digits into a natural number. -/
def decValue : List Nat → Nat
  | [] => 0
  | d :: ds => d + 10 * decValue ds

/-- The character for one decimal digit. -/
def decDigitChar (d : Nat) : Char :=
  Char.ofNat (48 + d)

/-- JavaScript rendering of a natural number as a decimal string. -/
def natDec (n : Nat) : String :=
  if n = 0 then "0" else String.mk ((decDigitsRev n).reverse.map decDigitChar)

/-! ## The script-copy pipeline
Embeds `_getScriptPath` (lines 292-298), `_copyInstanceScript` (lines
303-350) and the copy-then-execute waterfall of `executeInstanceScript`
(lines 265-287).  The outcome of each spawned `scp` process is supplied as a
list of exit codes, one per attempt; the observable behaviour is the ordered
list of events: process executions, scheduled delays, and invocations of the
caller's callback. -/

/-- True when the string contains the path separator (`path.sep`, a slash):
embeds `script.indexOf(path.sep) >= 0`. -/
def containsSep (s : String) : Bool := s.data.contains '/'

/-- Embedding of node `path.basename`: trailing separators stripped, then the
part after the last separator. -/
def jsPathBasename (s : String) : String :=
  String.mk (((s.data.reverse.dropWhile (fun c => c = '/')).takeWhile
    (fun c => c ≠ '/')).reverse)

/-- Embeds `_getScriptPath`: a bare name is joined against the configured
scripts directory, a path containing a separator is used as-is. -/
def getScriptPath (scripts_path script : String) : String :=
  if containsSep script then script else scripts_path ++ "/" ++ script

/-- The `basename` local of `_copyInstanceScript` (lines 307-313). -/
def copyBasename (script : String) : String :=
  if containsSep script then jsPathBasename script else script

/-- The `target_path` local of `_copyInstanceScript` (line 314):
`sprintf('/tmp/%s_%s', basename, moment().unix())` where `ts` is the unix
timestamp taken at invocation time. -/
def copyTargetPath (script : String) (ts : Nat) : String :=
  "/tmp/" ++ copyBasename script ++ "_" ++ natDec ts

/-- The `copy_cmd` local of `_copyInstanceScript` (line 315). -/
def copyCmd (key scripts_path script ip target_path : String) : String :=
  "scp -i " ++ key ++ " -o StrictHostKeyChecking=no -o GSSAPIAuthentication=no -q "
    ++ getScriptPath scripts_path script ++ " root@" ++ ip ++ ":" ++ target_path

/-- Observable events of the copy step. -/
inductive CopyEv
  | exec (attempt : Nat) (cmd : String)
  | cbOk (ip target_path : String)
  | cbErr (msg : String)
  | wait (ms : Nat)
deriving DecidableEq, Repr

/-- Embeds the `kopy` closure of `_copyInstanceScript` (lines 319-348).
Each recursive round consumes one exit code.  On a non-zero exit code with
`attempts > 10` the callback receives the transfer error and the loop stops;
with `attempts <= 10` a retry is scheduled via `setTimeout(..., 120000)` and
control then falls through (there is no `return` after the `setTimeout`) to
the success log and `cb(null, ...)`, so a success callback is emitted before
the retry runs.  On a zero exit code the callback receives success. -/
def kopyTrace (ip target_path copy_cmd : String) (attempts : Nat) :
    List Nat → List CopyEv
  | [] => []
  | code :: rest =>
    CopyEv.exec (attempts + 1) copy_cmd ::
      (if code ≠ 0 then
        (if attempts + 1 > 10 then
          [CopyEv.cbErr ("scp returned with error code: " ++ natDec code)]
        else
          CopyEv.cbOk ip target_path :: CopyEv.wait 120000 ::
            kopyTrace ip target_path copy_cmd (attempts + 1) rest)
      else
        [CopyEv.cbOk ip target_path])

/-- Embeds `_copyInstanceScript` applied to a droplet's `ip_address` and a
script, with the per-attempt `scp` exit codes supplied in `codes`. -/
def copyInstanceScript (key scripts_path ip script : String) (ts : Nat)
    (codes : List Nat) : List CopyEv :=
  kopyTrace ip (copyTargetPath script ts)
    (copyCmd key scripts_path script ip (copyTargetPath script ts)) 0 codes

/-- The first callback invocation emitted by the copy step; in
`executeInstanceScript` this is the invocation that drives `async.waterfall`. -/
def firstCopyCb (evs : List CopyEv) : Option CopyEv :=
  evs.find? (fun e => match e with
    | CopyEv.cbOk _ _ => true
    | CopyEv.cbErr _ => true
    | _ => false)

/-- Embeds the waterfall of `executeInstanceScript` (lines 272-286): the
remote-execution task runs exactly when the copy step's first callback
carries no error. -/
def proceedsToExecute (key scripts_path ip script : String) (ts : Nat)
    (codes : List Nat) : Bool :=
  match firstCopyCb (copyInstanceScript key scripts_path ip script ts codes) with
  | some (CopyEv.cbOk _ _) => true
  | _ => false

/-- Number of `scp` process executions in a copy trace. -/
def copyAttemptCount (evs : List CopyEv) : Nat :=
  (evs.filter (fun e => match e with
    | CopyEv.exec _ _ => true
    | _ => false)).length

/-- The scheduled retry delays of a copy trace, in order. -/
def copyWaits (evs : List CopyEv) : List Nat :=
  evs.filterMap (fun e => match e with
    | CopyEv.wait ms => some ms
    | _ => none)

/-! ## The single-droplet provisioning lifecycle
Embeds the creation-to-ready stages of `_provision` (lines 481-524) and
`_getDropletLaunchTimeout` (lines 529-531).  The `dropletNew` outcome, the
per-tick `eventGet` observations of the poll interval (paired with the
elapsed seconds `moment().unix() - start` computed on that tick), and the
outcome of the port-22 reachability wait are supplied as inputs. -/

/-- A provider droplet snapshot (the fields the lifecycle code reads). -/
structure Droplet where
  id : Nat
  event_id : Nat
  ip_address : String
deriving DecidableEq, Repr

/-- One `eventGet` observation on a poll tick: an API error or the event's
`action_status` string. -/
inductive TickObs
  | err (e : String)
  | status (s : String)
deriving DecidableEq, Repr

/-- Embeds `_getDropletLaunchTimeout` (lines 529-531): 600 seconds. -/
def getDropletLaunchTimeout : Nat := 600

/-- How the `setInterval` event-poll loop terminates. -/
inductive PollResult
  | pollErr (e : String)
  | done
  | timeout (msg : String)
  | pending
deriving DecidableEq, Repr

/-- Embeds the poll loop of `_provision` (lines 489-522).  Each tick: an
`eventGet` error clears the interval and is terminal; status "done" clears
the interval and hands off to the port wait; otherwise
`tsDiff >= _getDropletLaunchTimeout()` reports the creation timeout, and
below the bound the loop polls again.  `pending` means the supplied
observations end with the loop still running. -/
def pollLoop : List (Nat × TickObs) → PollResult
  | [] => PollResult.pending
  | (elapsed, obs) :: rest =>
    match obs with
    | TickObs.err e => PollResult.pollErr e
    | TickObs.status s =>
      if s = "done" then PollResult.done
      else if getDropletLaunchTimeout ≤ elapsed then
        PollResult.timeout
          ("Creation of new droplet exceeded timeout of: " ++ natDec getDropletLaunchTimeout)
      else pollLoop rest

/-- How the lifecycle portion of `_provision` terminates.  `createThrown`
records the `throw err` on line 486: a `dropletNew` error escapes as an
exception and never reaches a callback.  Every `cb...` constructor is an
invocation of the lifecycle callback `cb`. -/
inductive LifecycleOutcome
  | createThrown (e : String)
  | cbPollErr (e : String)
  | cbCreationTimeout (msg : String)
  | cbPortErr (e : String)
  | cbReady (d : Droplet)
  | pending
deriving DecidableEq, Repr

/-- True when a lifecycle outcome is an invocation of the callback `cb`
(rather than a thrown exception or a still-running poll loop). -/
def LifecycleOutcome.deliveredToCallback : LifecycleOutcome → Bool
  | LifecycleOutcome.createThrown _ => false
  | LifecycleOutcome.pending => false
  | _ => true

/-- Embeds the creation-to-ready stages of `_provision`: the `dropletNew`
call (`throw err` on error, line 486), then the event-poll loop, then on
"done" the `tcpPortUsed.waitUntilUsedOnHost(22, ..., 1000, 240000)` wait
whose failure is passed to `cb` and whose success leads, after the fixed
10-second settle delay, to `cb(null, droplet)`.  No stage after the poll
loop consults the creation timeout. -/
def provisionLifecycle (createRes : Except String Droplet)
    (ticks : List (Nat × TickObs)) (portRes : Except String Unit) :
    LifecycleOutcome :=
  match createRes with
  | Except.error e => LifecycleOutcome.createThrown e
  | Except.ok droplet =>
    match pollLoop ticks with
    | PollResult.pollErr e => LifecycleOutcome.cbPollErr e
    | PollResult.timeout m => LifecycleOutcome.cbCreationTimeout m
    | PollResult.pending => LifecycleOutcome.pending
    | PollResult.done =>
      match portRes with
      | Except.error e => LifecycleOutcome.cbPortErr e
      | Except.ok _ => LifecycleOutcome.cbReady droplet

/-- A poll tick on which the loop keeps waiting: a status other than "done"
with elapsed time strictly below the launch timeout. -/
def stillWaitingTick (t : Nat × TickObs) : Prop :=
  ∃ s, t.2 = TickObs.status s ∧ s ≠ "done" ∧ t.1 < getDropletLaunchTimeout

/-- A poll tick on which the loop reports the creation timeout: a status
other than "done" with elapsed time at or above the launch timeout. -/
def timeoutTick (t : Nat × TickObs) : Prop :=
  ∃ s, t.2 = TickObs.status s ∧ s ≠ "done" ∧ getDropletLaunchTimeout ≤ t.1

/-! ## Batch provisioning fan-out (`provision`, lines 413-430)
Each request is represented by the outcome its `_provision` pipeline
delivers.  `async.parallel` is modelled under the deterministic schedule in
which tasks complete in start order; its final callback receives the first
error (if any) together with the results array observed at that moment —
one slot per task completed so far, the errored task's slot holding no
value. -/

/-- Embeds the argument normalization of `provision` (lines 416-420): a
non-array argument is wrapped into a batch of one. -/
def toBatch (options : Sum α (List α)) : List α :=
  match options with
  | Sum.inl single => [single]
  | Sum.inr batch => batch

/-- Embeds `async.parallel` at its final callback, tasks completing in start
order: first error (if any) plus the results array at callback time. -/
def asyncParallel : List (Except ε α) → Option ε × List (Option α)
  | [] => (none, [])
  | Except.error e :: _ => (some e, [none])
  | Except.ok a :: rest =>
    let (e?, results) := asyncParallel rest
    (e?, some a :: results)

/-- Embeds `provision` (lines 413-430): wrap a single request, fan out the
per-request `_provision` pipelines via `async.parallel`, and hand `(err,
provisioned_instances)` to the caller's callback. -/
def provision (options : Sum (Except String Droplet) (List (Except String Droplet))) :
    Option String × List (Option Droplet) :=
  asyncParallel (toBatch options)

/-! ## Per-instance configuration
Embeds the configuration phase of `_provision`'s `cb` (lines 441-480) and
the per-instance script series of `executeScripts` (lines 191-205).  Each
folder sync and each script execution is represented by the outcome its
task delivers. -/

/-- A step of one instance's configuration pipeline. -/
inductive ConfigStep
  | syncFolder (i : Nat)
  | runScript (i : Nat)
deriving DecidableEq, Repr

/-- Embeds `async.series` over supplied task outcomes: tasks run strictly in
order, stopping after the first error; yields the steps that ran (numbered
from `start`) and the first error, if any. -/
def asyncSeries (mk : Nat → ConfigStep) (start : Nat) :
    List (Except String String) → List ConfigStep × Option String
  | [] => ([], none)
  | Except.error e :: _ => ([mk start], some e)
  | Except.ok _ :: rest =>
    let (steps, e?) := asyncSeries mk (start + 1) rest
    (mk start :: steps, e?)

/-- Embeds the configuration phase for one ready instance: when
`options.folders` is an array its syncs run as an `async.series` and a sync
error goes straight to `finalCb`; only if every sync succeeded does
`runScripts` run, which executes the script series when `options.scripts`
is a non-empty array.  `none` stands for an absent (non-array) option. -/
def configureInstance (folders : Option (List (Except String String)))
    (scripts : Option (List (Except String String))) (inst : Droplet) :
    List ConfigStep × Except String Droplet :=
  let runScriptsPart : List ConfigStep × Except String Droplet :=
    match scripts with
    | some ss =>
      if ss.isEmpty then ([], Except.ok inst)
      else
        let (steps, e?) := asyncSeries ConfigStep.runScript 0 ss
        (steps, match e? with
          | some e => Except.error e
          | none => Except.ok inst)
    | none => ([], Except.ok inst)
  match folders with
  | some fs =>
    let (steps, e?) := asyncSeries ConfigStep.syncFolder 0 fs
    match e? with
    | some e => (steps, Except.error e)
    | none => (steps ++ runScriptsPart.1, runScriptsPart.2)
  | none => runScriptsPart

/-! ## Remote execution of a staged script
Embeds `_executeExistingInstanceScript` (lines 355-375). -/

/-- The `script_cmd` local (line 356): one remote shell invocation that marks
the staged file executable and then runs it. -/
def executeScriptCmd (ip key script_path : String) : String :=
  "ssh root@" ++ ip ++ " -i " ++ key ++
    " -o StrictHostKeyChecking=no -o GSSAPIAuthentication=no -q \"chmod +x " ++
    script_path ++ "; " ++ script_path ++ "\""

/-- How `_executeExistingInstanceScript` concludes.  On a non-zero exit code
the error branch first builds the log payload on line 367, whose `cmd` field
reads the variable `cmd` — undefined in that function (the local is named
`script_cmd`) — so a ReferenceError is raised before either `_log` or the
`cb` on line 370 can run: the callback never receives the error. -/
inductive RemoteExecOutcome
  | thrownReferenceError
  | cbOk (output : String)
deriving DecidableEq, Repr

/-- Embeds `_executeExistingInstanceScript` given the exit code and captured
output of the single (never retried) remote shell invocation. -/
def executeExistingInstanceScript (code : Nat) (output : String) :
    RemoteExecOutcome :=
  if code ≠ 0 then RemoteExecOutcome.thrownReferenceError
  else RemoteExecOutcome.cbOk output

/-! ## Fleet reconciliation
Embeds `dropletDestroyExcept` (lines 536-568).  The keep-list arrives as
raw values that the code normalizes with `parseInt(id, 10)`; the
`dropletGetAll` response and the outcome of each `dropletDestroy` call are
supplied as inputs. -/

/-- Embedding of JS `parseInt(x, 10)` on a string: optional sign, then the
longest leading run of decimal digits; `none` models `NaN`. -/
def jsParseInt (s : String) : Option Int :=
  let (neg, cs) :=
    match s.data with
    | '-' :: rest => (true, rest)
    | cs => (false, cs)
  let ds := cs.takeWhile Char.isDigit
  if ds.isEmpty then none
  else
    let v : Nat := ds.foldl (fun a c => a * 10 + (c.toNat - 48)) 0
    some (if neg then -(v : Int) else (v : Int))

/-- The `ids.indexOf(droplet.id) < 0` membership test on normalized values:
`NaN` (here `none`) compares unequal to everything, itself included. -/
def jsIdMem (x : Option Int) (l : List (Option Int)) : Bool :=
  match x with
  | none => false
  | some n => l.contains (some n)

/-- A droplet as reported by `dropletGetAll`, reduced to the field
`dropletDestroyExcept` reads. -/
structure FleetDroplet where
  id : String
deriving DecidableEq, Repr

/-- The `bad_ids` list (lines 549-554): normalized ids of listed droplets
absent from the normalized keep-list; these are the destroy targets. -/
def badIds (keep : List String) (droplets : List FleetDroplet) :
    List (Option Int) :=
  let ids := keep.map jsParseInt
  (droplets.map (fun d => jsParseInt d.id)).filter (fun i => !(jsIdMem i ids))

/-- The first argument of the final `cb` invocation of
`dropletDestroyExcept`: the code runs `cb(err)` on a listing or destroy
error and `cb(result)` on success (line 565), so even the success results
array travels in the first (error-position) argument. -/
inductive DestroyCbFirst
  | err (e : String)
  | results (rs : List (Option String))
deriving DecidableEq, Repr

/-- Embeds `dropletDestroyExcept`: list all droplets, compute `bad_ids`,
destroy each concurrently via `async.parallel`, then invoke the callback.
The returned pair is the callback's two arguments; the second argument is
never supplied by the code. -/
def dropletDestroyExcept (keep : List String)
    (listRes : Except String (List FleetDroplet))
    (destroy : Option Int → Except String String) :
    Option DestroyCbFirst × Option (List Int) :=
  match listRes with
  | Except.error e => (some (DestroyCbFirst.err e), none)
  | Except.ok droplets =>
    match asyncParallel ((badIds keep droplets).map destroy) with
    | (some e, _) => (some (DestroyCbFirst.err e), none)
    | (none, results) => (some (DestroyCbFirst.results results), none)

/-! ## Folder mirroring
Embeds `copyFolder` (lines 218-238) and `syncFolders` (lines 240-260).
`lookup` is the `dropletGet` response for the requested instance id and `ex`
maps a shell command to the exit code and output of running it. -/

/-- Embeds JS `dest.slice(-1)`: the last character as a one-character string
(empty for the empty string). -/
def jsSliceLast (s : String) : String :=
  match s.data.reverse with
  | [] => ""
  | c :: _ => String.mk [c]

/-- The `rsync_cmd` built by both folder operations (lines 227 and 249): a
mirrored sync (`--delete`) over ssh to the normalized destination. -/
def rsyncCmd (key source ip dest : String) : String :=
  "rsync -avz --delete -e 'ssh -i " ++ key ++
    " -o StrictHostKeyChecking=no -o GSSAPIAuthentication=no' " ++ source ++
    " root@" ++ ip ++ ":" ++ dest

/-- Embeds `copyFolder` (lines 218-238): look up the droplet, normalize the
destination to a trailing slash, run the mirrored sync, and deliver the
output or the error to the callback. -/
def copyFolder (key : String) (lookup : Except String Droplet)
    (source dest : String) (ex : String → Nat × String) : Except String String :=
  match lookup with
  | Except.error e => Except.error e
  | Except.ok inst =>
    let d := if jsSliceLast dest ≠ "/" then dest ++ "/" else dest
    let cmd := rsyncCmd key source inst.ip_address d
    let (code, output) := ex cmd
    if code ≠ 0 then Except.error ("Error running rsync: " ++ cmd)
    else Except.ok output

/-- Embeds `syncFolders` (lines 240-260), transcribed from its own body. -/
def syncFolders (key : String) (lookup : Except String Droplet)
    (source dest : String) (ex : String → Nat × String) : Except String String :=
  match lookup with
  | Except.error e => Except.error e
  | Except.ok inst =>
    let d := if jsSliceLast dest ≠ "/" then dest ++ "/" else dest
    let cmd := rsyncCmd key source inst.ip_address d
    let (code, output) := ex cmd
    if code ≠ 0 then Except.error ("Error running rsync: " ++ cmd)
    else Except.ok output


/-! ## Theorems -/

theorem decValue_decDigitsRev (n : Nat) : decValue (decDigitsRev n) = n := by
  induction n using Nat.strong_induction_on with
  | _ n ih =>
    rw [decDigitsRev]
    split
    · simp only [decValue]; omega
    · rename_i h
      have hlt : n / 10 < n := Nat.div_lt_self (Nat.pos_of_ne_zero h) (by decide)
      simp only [decValue, ih (n / 10) hlt]
      omega


theorem decDigitsRev_injective {m n : Nat}
    (h : decDigitsRev m = decDigitsRev n) : m = n := by
  have := congrArg decValue h
  rwa [decValue_decDigitsRev, decValue_decDigitsRev] at this


theorem decDigitsRev_lt_ten (n : Nat) : ∀ d ∈ decDigitsRev n, d < 10 := by
  induction n using Nat.strong_induction_on with
  | _ n ih =>
    rw [decDigitsRev]
    split
    · simp
    · rename_i h
      have hlt : n / 10 < n := Nat.div_lt_self (Nat.pos_of_ne_zero h) (by decide)
      intro d hd
      rcases List.mem_cons.mp hd with h1 | h2
      · subst h1; exact Nat.mod_lt _ (by decide)
      · exact ih (n / 10) hlt d h2


theorem decDigitChar_inj_lt : ∀ d₁, d₁ < 10 → ∀ d₂, d₂ < 10 →
    decDigitChar d₁ = decDigitChar d₂ → d₁ = d₂ := by decide


theorem map_decDigitChar_inj {l₁ l₂ : List Nat}
    (h₁ : ∀ d ∈ l₁, d < 10) (h₂ : ∀ d ∈ l₂, d < 10)
    (h : l₁.map decDigitChar = l₂.map decDigitChar) : l₁ = l₂ := by
  induction l₁ generalizing l₂ with
  | nil => cases l₂ with
    | nil => rfl
    | cons b bs => simp at h
  | cons a as ih =>
    cases l₂ with
    | nil => simp at h
    | cons b bs =>
      simp only [List.map_cons, List.cons.injEq] at h
      have ha : a < 10 := h₁ a (List.mem_cons_self a as)
      have hb : b < 10 := h₂ b (List.mem_cons_self b bs)
      have hab : a = b := decDigitChar_inj_lt a ha b hb h.1
      have htl : as = bs :=
        ih (fun d hd => h₁ d (List.mem_cons_of_mem a hd))
          (fun d hd => h₂ d (List.mem_cons_of_mem b hd)) h.2
      rw [hab, htl]


theorem string_eq_of_data {s t : String} (h : s.data = t.data) : s = t := by
  cases s; cases t; exact congrArg String.mk h


theorem natDec_injective {m n : Nat} (h : natDec m = natDec n) : m = n := by
  have hdata := congrArg String.data h
  by_cases hm : m = 0 <;> by_cases hn : n = 0
  · rw [hm, hn]
  · exfalso
    rw [natDec, natDec, if_pos hm, if_neg hn] at hdata
    simp only [String.data] at hdata
    have hlen := congrArg List.length hdata
    simp only [List.length_map, List.length_reverse] at hlen
    have : decValue (decDigitsRev n) = n := decValue_decDigitsRev n
    rcases hd : decDigitsRev n with _ | ⟨d, ds⟩
    · rw [hd] at this
      exact hn (by simpa [decValue] using this.symm)
    · rw [hd] at hlen
      cases ds with
      | nil =>
        rw [hd] at hdata
        simp only [List.reverse_cons, List.reverse_nil, List.nil_append,
          List.map_cons, List.map_nil] at hdata
        have hchar : '0' = decDigitChar d := by
          have := hdata
          simpa using this
        have hd10 : d < 10 := decDigitsRev_lt_ten n d (by rw [hd]; simp)
        have hd0 : d = 0 := by
          have h0 : (0 : Nat) < 10 := by decide
          exact (decDigitChar_inj_lt 0 h0 d hd10 (by simpa [decDigitChar] using hchar)).symm
        rw [hd, hd0] at this
        exact hn (by simpa [decValue] using this.symm)
      | cons e es => simp at hlen
  · exfalso
    rw [natDec, natDec, if_neg hm, if_pos hn] at hdata
    simp only [String.data] at hdata
    have hlen := congrArg List.length hdata
    simp only [List.length_map, List.length_reverse] at hlen
    have : decValue (decDigitsRev m) = m := decValue_decDigitsRev m
    rcases hd : decDigitsRev m with _ | ⟨d, ds⟩
    · rw [hd] at this
      exact hm (by simpa [decValue] using this.symm)
    · rw [hd] at hlen
      cases ds with
      | nil =>
        rw [hd] at hdata
        simp only [List.reverse_cons, List.reverse_nil, List.nil_append,
          List.map_cons, List.map_nil] at hdata
        have hchar : decDigitChar d = '0' := by
          have := hdata
          simpa using this
        have hd10 : d < 10 := decDigitsRev_lt_ten m d (by rw [hd]; simp)
        have hd0 : d = 0 := by
          have h0 : (0 : Nat) < 10 := by decide
          exact decDigitChar_inj_lt d hd10 0 h0 (by simpa [decDigitChar] using hchar)
        rw [hd, hd0] at this
        exact hm (by simpa [decValue] using this.symm)
      | cons e es => simp at hlen
  · rw [natDec, natDec, if_neg hm, if_neg hn] at h
    have hlists := congrArg String.data h
    simp only [String.data] at hlists
    have hrev : (decDigitsRev m).reverse = (decDigitsRev n).reverse :=
      map_decDigitChar_inj
        (fun d hd => decDigitsRev_lt_ten m d (List.mem_reverse.mp hd))
        (fun d hd => decDigitsRev_lt_ten n d (List.mem_reverse.mp hd)) hlists
    exact decDigitsRev_injective (List.reverse_injective hrev)


theorem string_data_append (s t : String) : (s ++ t).data = s.data ++ t.data := rfl


/-- C1: the claim says that after a failed copy attempt the pipeline never
proceeds to remote execution until some copy attempt succeeds.  The code
violates this: with a single failing `scp` attempt (exit code 1, attempt
count below the retry budget) the copy step schedules the retry and then
falls through to `cb(null, ...)`, so the waterfall of
`executeInstanceScript` proceeds to the execution task although no copy
attempt has succeeded. -/
theorem c1_executes_after_failed_copy :
    proceedsToExecute "key" "/scripts" "10.0.0.1" "setup.sh" 5 [1] = true ∧
    (1 : Nat) ≠ 0 := by
  exact ⟨rfl, by decide⟩


/-- C3: when every `scp` attempt fails, the copy step makes exactly 11
attempts (1 initial plus 10 retries), each retry scheduled after a fixed
120-second delay, and the final callback carries the transfer error; when
the first attempt succeeds, exactly one attempt is made and no retry is
scheduled. -/
theorem c3_copy_retry_budget :
    (∀ key scripts_path ip script ts c, c ≠ 0 →
      copyAttemptCount (copyInstanceScript key scripts_path ip script ts
          [c, c, c, c, c, c, c, c, c, c, c]) = 11 ∧
      copyWaits (copyInstanceScript key scripts_path ip script ts
          [c, c, c, c, c, c, c, c, c, c, c]) =
        [120000, 120000, 120000, 120000, 120000,
         120000, 120000, 120000, 120000, 120000] ∧
      (copyInstanceScript key scripts_path ip script ts
          [c, c, c, c, c, c, c, c, c, c, c]).getLast? =
        some (CopyEv.cbErr ("scp returned with error code: " ++ natDec c))) ∧
    (∀ key scripts_path ip script ts rest,
      copyInstanceScript key scripts_path ip script ts (0 :: rest) =
        [CopyEv.exec 1 (copyCmd key scripts_path script ip (copyTargetPath script ts)),
         CopyEv.cbOk ip (copyTargetPath script ts)]) := by
  constructor
  · intro key scripts_path ip script ts c hc
    refine ⟨?_, ?_, ?_⟩ <;>
      simp [copyInstanceScript, kopyTrace, hc, copyAttemptCount, copyWaits]
  · intro key scripts_path ip script ts rest
    simp [copyInstanceScript, kopyTrace]


/-- Witness for `c3_copy_retry_budget` at concrete inputs. -/
theorem c3_copy_retry_budget_witness :
    copyAttemptCount (copyInstanceScript "key" "/scripts" "10.0.0.1" "setup.sh" 5
        [1, 1, 1, 1, 1, 1, 1, 1, 1, 1, 1]) = 11 ∧
    copyInstanceScript "key" "/scripts" "10.0.0.1" "setup.sh" 5 [0] =
      [CopyEv.exec 1 (copyCmd "key" "/scripts" "setup.sh" "10.0.0.1"
          (copyTargetPath "setup.sh" 5)),
       CopyEv.cbOk "10.0.0.1" (copyTargetPath "setup.sh" 5)] :=
  ⟨(c3_copy_retry_budget.1 "key" "/scripts" "10.0.0.1" "setup.sh" 5 1 (by decide)).1,
   c3_copy_retry_budget.2 "key" "/scripts" "10.0.0.1" "setup.sh" 5 []⟩


/-- C9: two invocations of the copy pipeline for the same script at
different timestamps derive distinct remote staging paths. -/
theorem c9_staging_path_unique (script : String) (t₁ t₂ : Nat) (h : t₁ ≠ t₂) :
    copyTargetPath script t₁ ≠ copyTargetPath script t₂ := by
  intro heq
  apply h
  apply natDec_injective
  apply string_eq_of_data
  have hd := congrArg String.data heq
  simp only [copyTargetPath, string_data_append] at hd
  exact List.append_cancel_left hd


/-- Witness for `c9_staging_path_unique` at concrete inputs. -/
theorem c9_staging_path_unique_witness :
    copyTargetPath "setup.sh" 5 ≠ copyTargetPath "setup.sh" 6 :=
  c9_staging_path_unique "setup.sh" 5 6 (by decide)


theorem pollLoop_timeout_of (pre : List (Nat × TickObs)) (t : Nat × TickObs)
    (post : List (Nat × TickObs)) (hpre : ∀ u ∈ pre, stillWaitingTick u)
    (ht : timeoutTick t) :
    pollLoop (pre ++ t :: post) =
      PollResult.timeout
        ("Creation of new droplet exceeded timeout of: " ++ natDec getDropletLaunchTimeout) := by
  induction pre with
  | nil =>
    obtain ⟨e, o⟩ := t
    obtain ⟨s, hs, hsd, hle⟩ := ht
    simp only at hs
    subst hs
    simp [pollLoop, hsd, hle]
  | cons u pre' ih =>
    obtain ⟨e, o⟩ := u
    obtain ⟨s, hs, hsd, hlt⟩ := hpre (e, o) (by simp)
    simp only at hs
    subst hs
    simp only [List.cons_append, pollLoop, hsd, if_false]
    rw [if_neg (Nat.not_le.mpr hlt)]
    exact ih (fun v hv => hpre v (List.mem_cons_of_mem _ hv))


theorem pollLoop_timeout_split :
    ∀ (ticks : List (Nat × TickObs)) (m : String),
      pollLoop ticks = PollResult.timeout m →
      ∃ pre t post, ticks = pre ++ t :: post ∧
        (∀ u ∈ pre, stillWaitingTick u) ∧ timeoutTick t := by
  intro ticks
  induction ticks with
  | nil => intro m h; simp [pollLoop] at h
  | cons head rest ih =>
    intro m h
    obtain ⟨e, o⟩ := head
    cases o with
    | err s => simp [pollLoop] at h
    | status s =>
      by_cases hsd : s = "done"
      · simp [pollLoop, hsd] at h
      · by_cases hge : getDropletLaunchTimeout ≤ e
        · exact ⟨[], (e, TickObs.status s), rest, by simp, by simp,
            ⟨s, rfl, hsd, hge⟩⟩
        · have h' : pollLoop rest = PollResult.timeout m := by
            simpa [pollLoop, hsd, hge] using h
          obtain ⟨pre, t, post, hsplit, hpre, ht⟩ := ih m h'
          refine ⟨(e, TickObs.status s) :: pre, t, post, by simp [hsplit], ?_, ht⟩
          intro u hu
          rcases List.mem_cons.mp hu with h1 | h2
          · subst h1; exact ⟨s, rfl, hsd, Nat.lt_of_not_le hge⟩
          · exact hpre u h2


/-- C2: the claim as stated says a creation-timeout error is reported if and
only if, on a poll tick, the elapsed time strictly exceeds 600 seconds while
the event is not "done".  The code checks `tsDiff >= 600`, so a tick at
elapsed time exactly 600 with a non-"done" status already reports the
timeout although the elapsed time does not exceed 600. -/
theorem c2_claim_counterexample :
    provisionLifecycle (Except.ok ⟨1, 2, "10.0.0.1"⟩)
        [(600, TickObs.status "new")] (Except.ok ()) =
      LifecycleOutcome.cbCreationTimeout
        ("Creation of new droplet exceeded timeout of: " ++ natDec getDropletLaunchTimeout) ∧
    ¬ (600 : Nat) > 600 :=
  ⟨rfl, by decide⟩


/-- C2 amended: the controller reports a creation-timeout error if and only
if, on an event-poll tick, the elapsed time since the request began reaches
or exceeds 600 seconds (`tsDiff >= 600`) while the creation event's status
has not been observed as "done"; once "done" has been observed, no
creation-timeout error is ever reported, regardless of how the port-wait and
settle stages turn out. -/
theorem c2_creation_timeout_iff :
    (∀ (d : Droplet) (ticks : List (Nat × TickObs)) (portRes : Except String Unit),
      (∃ m, provisionLifecycle (Except.ok d) ticks portRes =
        LifecycleOutcome.cbCreationTimeout m) ↔
      ∃ pre t post, ticks = pre ++ t :: post ∧
        (∀ u ∈ pre, stillWaitingTick u) ∧ timeoutTick t) ∧
    (∀ (d : Droplet) (ticks : List (Nat × TickObs))
        (portRes : Except String Unit) (m : String),
      pollLoop ticks = PollResult.done →
      provisionLifecycle (Except.ok d) ticks portRes ≠
        LifecycleOutcome.cbCreationTimeout m) := by
  constructor
  · intro d ticks portRes
    constructor
    · rintro ⟨m, hm⟩
      cases hp : pollLoop ticks with
      | pollErr e => simp [provisionLifecycle, hp] at hm
      | done => cases portRes <;> simp [provisionLifecycle, hp] at hm
      | timeout m' => exact pollLoop_timeout_split ticks m' hp
      | pending => simp [provisionLifecycle, hp] at hm
    · rintro ⟨pre, t, post, hsplit, hpre, ht⟩
      refine ⟨"Creation of new droplet exceeded timeout of: " ++
        natDec getDropletLaunchTimeout, ?_⟩
      have hp : pollLoop ticks = PollResult.timeout
          ("Creation of new droplet exceeded timeout of: " ++
            natDec getDropletLaunchTimeout) := by
        rw [hsplit]
        exact pollLoop_timeout_of pre t post hpre ht
      simp [provisionLifecycle, hp]
  · intro d ticks portRes m hdone
    cases portRes <;> simp [provisionLifecycle, hdone]


/-- Witness for `c2_creation_timeout_iff` at concrete inputs. -/
theorem c2_creation_timeout_iff_witness :
    (∃ m, provisionLifecycle (Except.ok ⟨1, 2, "10.0.0.1"⟩)
        [(8, TickObs.status "new"), (601, TickObs.status "new")]
        (Except.ok ()) = LifecycleOutcome.cbCreationTimeout m) ∧
    provisionLifecycle (Except.ok ⟨1, 2, "10.0.0.1"⟩)
        [(8, TickObs.status "done")] (Except.ok ()) ≠
      LifecycleOutcome.cbCreationTimeout "msg" :=
  ⟨(c2_creation_timeout_iff.1 ⟨1, 2, "10.0.0.1"⟩
      [(8, TickObs.status "new"), (601, TickObs.status "new")]
      (Except.ok ())).mpr
    ⟨[(8, TickObs.status "new")], (601, TickObs.status "new"), [], rfl,
      by intro u hu; simp at hu; subst hu
         exact ⟨"new", rfl, by decide, by decide⟩,
      ⟨"new", rfl, by decide, by decide⟩⟩,
   c2_creation_timeout_iff.2 ⟨1, 2, "10.0.0.1"⟩ [(8, TickObs.status "done")]
     (Except.ok ()) "msg" (by decide)⟩


/-- C4: the claim says a provider-side error from the create-instance call
is returned as an error result to the caller and does not crash by throwing.
The code's `dropletNew` callback runs `throw err` (line 486), so the error
escapes as an exception; no callback is invoked. -/
theorem c4_claim_counterexample :
    provisionLifecycle (Except.error "API rate limited") [] (Except.ok ()) =
      LifecycleOutcome.createThrown "API rate limited" ∧
    (provisionLifecycle (Except.error "API rate limited") []
        (Except.ok ())).deliveredToCallback = false :=
  ⟨rfl, rfl⟩


/-- C4 amended: an error from the provider's create-instance call is
terminal for that instance and is not retried (the poll loop never starts
and no later stage runs), but it is thrown as an exception rather than
returned as an error result through the caller's callback. -/
theorem c4_create_error_thrown (e : String) (ticks : List (Nat × TickObs))
    (portRes : Except String Unit) :
    provisionLifecycle (Except.error e) ticks portRes =
      LifecycleOutcome.createThrown e := rfl


theorem asyncSeries_all_ok (mk : Nat → ConfigStep) :
    ∀ (outs : List (Except String String)) (start : Nat),
      (∀ o ∈ outs, ∃ v, o = Except.ok v) →
      asyncSeries mk start outs = ((List.range' start outs.length).map mk, none) := by
  intro outs
  induction outs with
  | nil => intro start _; simp [asyncSeries]
  | cons o rest ih =>
    intro start h
    obtain ⟨v, hv⟩ := h o (List.mem_cons_self o rest)
    subst hv
    simp [asyncSeries, ih (start + 1) (fun u hu => h u (List.mem_cons_of_mem _ hu)),
      List.range'_succ]


theorem asyncSeries_first_error (mk : Nat → ConfigStep) :
    ∀ (pre : List (Except String String)) (e : String)
      (rest : List (Except String String)) (start : Nat),
      (∀ o ∈ pre, ∃ v, o = Except.ok v) →
      asyncSeries mk start (pre ++ Except.error e :: rest) =
        ((List.range' start (pre.length + 1)).map mk, some e) := by
  intro pre
  induction pre with
  | nil => intro e rest start _; simp [asyncSeries, List.range'_succ]
  | cons o pre' ih =>
    intro e rest start h
    obtain ⟨v, hv⟩ := h o (List.mem_cons_self o pre')
    subst hv
    have hih := ih e rest (start + 1) (fun u hu => h u (List.mem_cons_of_mem _ hu))
    simp [asyncSeries, hih, List.range'_succ]


theorem asyncParallel_all_ok {ε α : Type} :
    ∀ (outs : List (Except ε α)),
      (∀ o ∈ outs, ∃ a, o = Except.ok a) →
      asyncParallel outs = (none, outs.map Except.toOption) := by
  intro outs
  induction outs with
  | nil => intro _; simp [asyncParallel]
  | cons o rest ih =>
    intro h
    obtain ⟨a, ha⟩ := h o (List.mem_cons_self o rest)
    subst ha
    simp [asyncParallel, ih (fun u hu => h u (List.mem_cons_of_mem _ hu)),
      Except.toOption]


theorem asyncParallel_first_error {ε α : Type} :
    ∀ (pre : List (Except ε α)) (e : ε) (rest : List (Except ε α)),
      (∀ o ∈ pre, ∃ a, o = Except.ok a) →
      (asyncParallel (pre ++ Except.error e :: rest)).1 = some e := by
  intro pre
  induction pre with
  | nil => intro e rest _; simp [asyncParallel]
  | cons o pre' ih =>
    intro e rest h
    obtain ⟨a, ha⟩ := h o (List.mem_cons_self o pre')
    subst ha
    have hih := ih e rest (fun u hu => h u (List.mem_cons_of_mem _ hu))
    simp [asyncParallel, hih]


/-- C5: the claim says every batch of N requests yields exactly N
per-request outcomes in input order, each a ready instance or a tagged
error.  In the code `async.parallel` short-circuits: with three requests
whose second pipeline fails, the final callback receives the first error
and a results array of length 2 whose second slot holds no outcome at all,
so the failing request (and the one after it) has no per-request outcome. -/
theorem c5_claim_counterexample :
    provision (Sum.inr [Except.ok ⟨1, 10, "a"⟩, Except.error "create failed",
        Except.ok ⟨2, 20, "b"⟩]) =
      (some "create failed", [some ⟨1, 10, "a"⟩, none]) ∧
    (provision (Sum.inr [Except.ok ⟨1, 10, "a"⟩, Except.error "create failed",
        Except.ok ⟨2, 20, "b"⟩])).2.length ≠ 3 :=
  ⟨rfl, by decide⟩


/-- C5 amended: a single non-array request is treated as a batch of one;
when every request's pipeline succeeds, `provision` delivers no error and
exactly N outcomes in the same order as the input requests, each a ready
instance; when some pipeline fails (all requests before it succeeding), the
aggregate call reports that first error rather than N per-request
outcomes. -/
theorem c5_provision_batch :
    (∀ (outs : List (Except String Droplet)),
      (∀ o ∈ outs, ∃ d, o = Except.ok d) →
      provision (Sum.inr outs) = (none, outs.map Except.toOption)) ∧
    (∀ (pre : List (Except String Droplet)) (e : String)
        (rest : List (Except String Droplet)),
      (∀ o ∈ pre, ∃ d, o = Except.ok d) →
      (provision (Sum.inr (pre ++ Except.error e :: rest))).1 = some e) ∧
    (∀ r : Except String Droplet, provision (Sum.inl r) = provision (Sum.inr [r])) := by
  refine ⟨?_, ?_, ?_⟩
  · intro outs h
    exact asyncParallel_all_ok outs h
  · intro pre e rest h
    exact asyncParallel_first_error pre e rest h
  · intro r
    rfl


/-- Witness for `c5_provision_batch` at concrete inputs. -/
theorem c5_provision_batch_witness :
    provision (Sum.inr [Except.ok ⟨1, 10, "a"⟩, Except.ok ⟨2, 20, "b"⟩]) =
      (none, [some ⟨1, 10, "a"⟩, some ⟨2, 20, "b"⟩]) ∧
    (provision (Sum.inr [Except.ok ⟨1, 10, "a"⟩, Except.error "boom"])).1 =
      some "boom" :=
  ⟨c5_provision_batch.1 [Except.ok ⟨1, 10, "a"⟩, Except.ok ⟨2, 20, "b"⟩]
      (by intro o ho
          rcases List.mem_cons.mp ho with h1 | h2
          · exact ⟨⟨1, 10, "a"⟩, h1⟩
          · exact ⟨⟨2, 20, "b"⟩, by simpa using h2⟩),
   c5_provision_batch.2.1 [Except.ok ⟨1, 10, "a"⟩] "boom" []
      (by intro o ho; exact ⟨⟨1, 10, "a"⟩, by simpa using ho⟩)⟩


theorem asyncSeries_steps (mk : Nat → ConfigStep) :
    ∀ (outs : List (Except String String)) (start : Nat),
      ∃ n, (asyncSeries mk start outs).1 = (List.range' start n).map mk ∧
        n ≤ outs.length ∧
        ((asyncSeries mk start outs).2 = none → n = outs.length) := by
  intro outs
  induction outs with
  | nil => intro start; exact ⟨0, by simp [asyncSeries]⟩
  | cons o rest ih =>
    intro start
    cases o with
    | error e =>
      refine ⟨1, ?_, by simp, ?_⟩
      · simp [asyncSeries, List.range'_succ]
      · intro h; simp [asyncSeries] at h
    | ok v =>
      obtain ⟨n, h1, h2, h3⟩ := ih (start + 1)
      refine ⟨n + 1, ?_, by simpa using h2, ?_⟩
      · simp [asyncSeries, h1, List.range'_succ]
      · intro h
        have : (asyncSeries mk (start + 1) rest).2 = none := by
          simpa [asyncSeries] using h
        simp [h3 this]


/-- C6: within one instance's configuration pipeline, folder syncs run
first, in the supplied order, and scripts run only when every folder sync
has completed; when the folder sync after `pre` (all of whose syncs
succeed) fails, the pipeline executes exactly the syncs up to and including
the failing one — no later folder sync and no script — and returns that
first error to the caller. -/
theorem c6_folder_syncs_first :
    (∀ (fs ss : List (Except String String)) (inst : Droplet),
      ∃ nf ns, (configureInstance (some fs) (some ss) inst).1 =
          (List.range nf).map ConfigStep.syncFolder ++
            (List.range ns).map ConfigStep.runScript ∧
        (0 < ns → nf = fs.length)) ∧
    (∀ (pre : List (Except String String)) (e : String)
        (rest ss : List (Except String String)) (inst : Droplet),
      (∀ o ∈ pre, ∃ v, o = Except.ok v) →
      configureInstance (some (pre ++ Except.error e :: rest)) (some ss) inst =
        ((List.range (pre.length + 1)).map ConfigStep.syncFolder,
          Except.error e)) := by
  constructor
  · intro fs ss inst
    obtain ⟨nf, hf1, hf2, hf3⟩ := asyncSeries_steps ConfigStep.syncFolder fs 0
    cases hfe : (asyncSeries ConfigStep.syncFolder 0 fs).2 with
    | some e =>
      refine ⟨nf, 0, ?_, by simp⟩
      simp [configureInstance, hfe, hf1, List.range_eq_range']
    | none =>
      have hnf : nf = fs.length := hf3 hfe
      by_cases hss : ss.isEmpty
      · refine ⟨nf, 0, ?_, fun _ => hnf⟩
        simp [configureInstance, hfe, hf1, hss, List.range_eq_range']
      · obtain ⟨ns, hs1, hs2, hs3⟩ := asyncSeries_steps ConfigStep.runScript ss 0
        refine ⟨nf, ns, ?_, fun _ => hnf⟩
        simp [configureInstance, hfe, hf1, hss, hs1, List.range_eq_range']
  · intro pre e rest ss inst h
    have hs := asyncSeries_first_error ConfigStep.syncFolder pre e rest 0 h
    simp [configureInstance, hs, List.range_eq_range']


/-- Witness for `c6_folder_syncs_first` at concrete inputs: three folder
syncs of which the second fails, two scripts supplied. -/
theorem c6_folder_syncs_first_witness :
    configureInstance
        (some [Except.ok "synced a", Except.error "sync failed", Except.ok "c"])
        (some [Except.ok "s1", Except.ok "s2"]) ⟨1, 10, "ip"⟩ =
      ((List.range 2).map ConfigStep.syncFolder, Except.error "sync failed") :=
  c6_folder_syncs_first.2 [Except.ok "synced a"] "sync failed" [Except.ok "c"]
    [Except.ok "s1", Except.ok "s2"] ⟨1, 10, "ip"⟩
    (by intro o ho; exact ⟨"synced a", by simpa using ho⟩)


/-- C7: the execution step does mark the staged file executable and run it
exactly once with no retry, but the claimed error value never reaches the
caller: on a non-zero remote exit code the function raises a ReferenceError
(undefined variable `cmd` in the log payload), and the outcome is the same
whatever the captured output was, so no error value carrying the exit code
and output is delivered. -/
theorem c7_nonzero_exit_throws :
    executeScriptCmd "10.0.0.1" "key" "/tmp/setup.sh_5" =
      "ssh root@10.0.0.1 -i key -o StrictHostKeyChecking=no -o GSSAPIAuthentication=no -q \"chmod +x /tmp/setup.sh_5; /tmp/setup.sh_5\"" ∧
    executeExistingInstanceScript 1 "captured output" =
      RemoteExecOutcome.thrownReferenceError ∧
    ∀ output₁ output₂, executeExistingInstanceScript 1 output₁ =
      executeExistingInstanceScript 1 output₂ :=
  ⟨rfl, rfl, fun _ _ => rfl⟩


/-- C8: the claim says that on success the call returns the list of
destroyed identifiers to the caller as its success value.  In the code the
final invocation is `cb(result)`: with droplets 1-4, keep-list {2, 4} and
every destroy succeeding, the callback receives the destroy-call results
array as its first (error-position) argument and no success value at all —
even though the destroy targets were computed correctly as {1, 3}. -/
theorem c8_claim_counterexample :
    dropletDestroyExcept ["2", "4"] (Except.ok [⟨"1"⟩, ⟨"2"⟩, ⟨"3"⟩, ⟨"4"⟩])
        (fun _ => Except.ok "OK") =
      (some (DestroyCbFirst.results [some "OK", some "OK"]), none) ∧
    badIds ["2", "4"] [⟨"1"⟩, ⟨"2"⟩, ⟨"3"⟩, ⟨"4"⟩] = [some 1, some 3] :=
  ⟨rfl, rfl⟩


/-- C8 amended: `dropletDestroyExcept` issues destroys for exactly the
droplets whose numerically normalized identifier is absent from the
normalized keep-list (so nothing is destroyed when every identifier is
kept); a destroy failure is reported through the callback's error argument
as the first error; but the call never supplies a success value — on
success the destroy-call results array is passed in the callback's first
(error-position) argument. -/
theorem c8_destroy_except :
    (∀ (keep : List String) (droplets : List FleetDroplet) (i : Int),
      some i ∈ badIds keep droplets ↔
        ((∃ d ∈ droplets, jsParseInt d.id = some i) ∧
          some i ∉ keep.map jsParseInt)) ∧
    (∀ (keep : List String) (droplets : List FleetDroplet)
        (destroy : Option Int → Except String String),
      (dropletDestroyExcept keep (Except.ok droplets) destroy).2 = none) ∧
    (∀ (keep : List String) (droplets : List FleetDroplet)
        (destroy : Option Int → Except String String)
        (e : String) (rest : List (Option String)),
      asyncParallel ((badIds keep droplets).map destroy) = (some e, rest) →
      (dropletDestroyExcept keep (Except.ok droplets) destroy).1 =
        some (DestroyCbFirst.err e)) := by
  refine ⟨?_, ?_, ?_⟩
  · intro keep droplets i
    simp [badIds, jsIdMem, List.mem_filter, List.mem_map]
  · intro keep droplets destroy
    rcases hp : asyncParallel ((badIds keep droplets).map destroy) with ⟨e?, rs⟩
    cases e? <;> simp [dropletDestroyExcept, hp]
  · intro keep droplets destroy e rest h
    simp [dropletDestroyExcept, h]


/-- Witness for `c8_destroy_except` at concrete inputs. -/
theorem c8_destroy_except_witness :
    (some 1 ∈ badIds ["2"] [⟨"1"⟩, ⟨"2"⟩] ↔
      ((∃ d ∈ [(⟨"1"⟩ : FleetDroplet), ⟨"2"⟩], jsParseInt d.id = some 1) ∧
        some 1 ∉ ["2"].map jsParseInt)) ∧
    (dropletDestroyExcept ["2"] (Except.ok [⟨"1"⟩, ⟨"2"⟩])
        (fun _ => Except.error "destroy failed")).1 =
      some (DestroyCbFirst.err "destroy failed") :=
  ⟨c8_destroy_except.1 ["2"] [⟨"1"⟩, ⟨"2"⟩] 1,
   c8_destroy_except.2.2 ["2"] [⟨"1"⟩, ⟨"2"⟩]
     (fun _ => Except.error "destroy failed") "destroy failed" [none] (by decide)⟩


/-- C10: `copyFolder` and `syncFolders` are extensionally equal — for every
instance lookup, source, destination, private key and command runner they
perform the same lookup handling, the same trailing-slash normalization,
build the same mirrored-sync command, and deliver the same result or error
to the callback. -/
theorem c10_copyFolder_eq_syncFolders :
    ∀ (key : String) (lookup : Except String Droplet) (source dest : String)
      (ex : String → Nat × String),
      copyFolder key lookup source dest ex = syncFolders key lookup source dest ex :=
  fun _ _ _ _ _ => rfl
